import Mathlib

/-!
Verification development for the Weather_dashbord repository
(three Streamlit dashboard scripts: weather_dashboard.py, app.py,
VSOP-LIVEVIEW/streamlit_app.py).

The development shallowly embeds the data-handling cores of the three
scripts:

* the cell values and string helpers shared by the pandas-based sheet
  dashboard (Python str.strip, int(), substring test, str());
* the sheet join/sort/deep-link pipeline of VSOP-LIVEVIEW/streamlit_app.py,
  including a faithful model of the numpy introsort that backs
  pandas.DataFrame.sort_values with its default kind (quicksort);
* the feed-entry formatter of app.py with a model of
  datetime.strptime for the fixed format used there;
* the window validation and daily-series aggregation of
  weather_dashboard.py, and the geopy distance call it makes.

Machine floats only ever carry finitely representable data in the claims
under study, so numeric cells are modelled as rationals; the one genuinely
floating-point object (the geodesic distance value) is modelled over the
real numbers at great-circle granularity, which preserves the algebraic
properties (symmetry, zero on equal points) the specification claims.
-/

/-! ### Python string and value primitives -/

/-- Characters removed by Python str.strip() with no argument
(ASCII whitespace: space, tab, newline, carriage return, vertical tab,
form feed). -/
def pyWS (c : Char) : Bool :=
  c = ' ' || c = '\t' || c = '\n' || c = '\r' || c = '\x0b' || c = '\x0c'

/-- Python str.strip(): drop leading and trailing whitespace. -/
def pyStrip (s : String) : String :=
  String.mk (((s.data.dropWhile pyWS).reverse.dropWhile pyWS).reverse)

/-- Python substring test (the in operator on strings), as used by
the deep-link generation to test whether the base link already has a
query string. -/
def pySubstr (needle hay : String) : Bool :=
  (hay.data.tails).any (fun t => needle.data.isPrefixOf t)

/-- A pandas cell as it occurs in the sheets: missing (NaN), a string,
or a (finite) number.  Numbers are modelled as rationals. -/
inductive Cell where
  | na : Cell
  | str (s : String) : Cell
  | num (q : ℚ) : Cell
deriving DecidableEq, Inhabited

/-- pandas.notna on a cell. -/
def pyNotna : Cell → Bool
  | .na => false
  | _ => true

/-- Python str() of a cell value, at the granularity needed by the
dashboard (string cells render verbatim; numeric cells only ever feed
the f-string via int() first, so their exact rendering is irrelevant). -/
def pyStr : Cell → String
  | .na => "nan"
  | .str s => s
  | .num q => toString q

/-- Truncation toward zero, the behaviour of Python int() on a finite
float. -/
def ratTrunc (q : ℚ) : Int :=
  if 0 ≤ q then ⌊q⌋ else -⌊-q⌋

/-- Digit test for Python int() parsing. -/
def isDigitCh (c : Char) : Bool :=
  '0' ≤ c && c ≤ '9'

/-- Validates the digit body of a Python integer literal: digits with
single underscores strictly between digits (int("1_0") is legal,
int("_1"), int("1_"), int("1__0") are not). The first character must be
a digit; this function checks the remainder. -/
def pyIntDigitsRest : List Char → Bool
  | [] => true
  | '_' :: [] => false
  | '_' :: c :: rest => isDigitCh c && pyIntDigitsRest rest
  | c :: rest => isDigitCh c && pyIntDigitsRest rest

/-- Validates a full (sign-free) digit body for Python int(). -/
def pyIntDigits : List Char → Bool
  | [] => false
  | c :: rest => isDigitCh c && pyIntDigitsRest rest

/-- Numeric value of a digit list (underscores already removed). -/
def digitsVal (l : List Char) : Nat :=
  l.foldl (fun acc c => 10 * acc + (c.toNat - 48)) 0

/-- Python int(s) on a string: surrounding whitespace is allowed, then an
optional sign, then digits (with legal underscores).  Returns none where
Python raises ValueError. -/
def pyParseInt (s : String) : Option Int :=
  let core := ((s.data.dropWhile pyWS).reverse.dropWhile pyWS).reverse
  let signed : Bool × List Char :=
    match core with
    | '-' :: rest => (true, rest)
    | '+' :: rest => (false, rest)
    | l => (false, l)
  if pyIntDigits signed.2 then
    let v : Int := Int.ofNat (digitsVal (signed.2.filter (fun c => c ≠ '_')))
    some (if signed.1 then -v else v)
  else
    none

/-- Python int() applied to a cell, as the song loop does to the
STARTTIME column.  int of a missing value (float NaN) raises, int of a
finite float truncates toward zero, int of a string parses it. -/
def pyIntOfCell : Cell → Option Int
  | .na => none
  | .num q => some (ratTrunc q)
  | .str s => pyParseInt s

/-! ### Deep-link generation (VSOP-LIVEVIEW/streamlit_app.py, lines 109-118) -/

/-- The YouTube deep link built for one song row.  Mirrors:
if pd.notna(video_link_base) and pd.notna(starttime): try seconds =
int(starttime); connector = "&" if "?" in str(video_link_base) else "?";
link = base + connector + "t=" + seconds; except ValueError: link = base;
otherwise the link stays the empty string. -/
def youtubeLink (base starttime : Cell) : String :=
  if pyNotna base && pyNotna starttime then
    match pyIntOfCell starttime with
    | some seconds =>
        let connector := if pySubstr "?" (pyStr base) then "&" else "?"
        pyStr base ++ connector ++ "t=" ++ toString seconds
    | none => pyStr base
  else
    ""

/-- The display row rendered for one song:
f"{song_name} {vocal} {youtube_link}".strip(). -/
def renderSongRow (nameC vocalC base starttime : Cell) : String :=
  pyStrip (pyStr nameC ++ " " ++ pyStr vocalC ++ " " ++ youtubeLink base starttime)

/-- The rendering loop over the joined song rows: every row yields
exactly one displayed line. -/
def renderSongs (base : Cell) (songs : List (Cell × Cell × Cell)) : List String :=
  songs.map (fun s => renderSongRow s.1 s.2.1 base s.2.2)

/-! ### The sheet join of VSOP-LIVEVIEW/streamlit_app.py

A song row carries the join key (the ライブID column), the explicit
order field (the 曲順 column) and the song name (楽曲名).  The
dataframe sort df.sort_values(by='曲順') calls numpy argsort with its
default kind (quicksort, i.e. introsort) on the order column and
reorders the rows by the resulting permutation; the model below applies
the very same algorithm to the rows directly, comparing their order
fields, which is equivalent because every key lookup the index-level
algorithm performs goes through the index being permuted. -/

structure SongRow where
  liveId : Int
  order : Int
  name : String
deriving DecidableEq, Inhabited

/-- numpy's insertion step: the new element is shifted left past exactly
the elements whose key is strictly greater, hence it lands after every
element with an equal or smaller key (the C loop
while (pj > pl and vp < v[t[pj-1]]) shift). -/
def npInsert (x : SongRow) : List SongRow → List SongRow
  | [] => [x]
  | y :: ys => if x.order < y.order then x :: y :: ys else y :: npInsert x ys

/-- numpy's insertion sort processes the segment left to right,
inserting each element into the sorted prefix. -/
def npInsertionSortGo : List SongRow → List SongRow → List SongRow
  | acc, [] => acc
  | acc, x :: xs => npInsertionSortGo (npInsert x acc) xs

/-- numpy's insertion sort (the branch taken by introsort for segments
of fewer than 17 elements). -/
def npInsertionSort (l : List SongRow) : List SongRow :=
  npInsertionSortGo [] l

/-- Sort key of the array element at a position. -/
def keyA (a : Array SongRow) (i : Nat) : Int :=
  (a.getD i default).order

/-- Swap of two array positions (INTP_SWAP in the numpy source). -/
def aswapR (a : Array SongRow) (i j : Nat) : Array SongRow :=
  let x := a.getD i default
  let y := a.getD j default
  (a.setD i y).setD j x

/-- numpy's insertion sort applied in place to the segment [lo, hi] of
the array: the segment is extracted, sorted by npInsertionSort and
written back. -/
def insSortSegArr (a : Array SongRow) (lo hi : Nat) : Array SongRow :=
  let seg := (a.toList.drop lo).take (hi + 1 - lo)
  Array.mk (a.toList.take lo ++ npInsertionSort seg ++ a.toList.drop (hi + 1))

/-- The first do-while scan of the partition loop:
do { ++pi; } while (v[tosort[pi]] < vp).  Fueled; the pivot copy at
position pr-1 bounds the scan in the real algorithm. -/
def scanUpF : Nat → Array SongRow → Nat → Int → Nat
  | 0, _, pi, _ => pi + 1
  | f + 1, a, pi, vp =>
      let pi2 := pi + 1
      if keyA a pi2 < vp then scanUpF f a pi2 vp else pi2

/-- The second do-while scan: do { --pj; } while (vp < v[tosort[pj]]). -/
def scanDownF : Nat → Array SongRow → Nat → Int → Nat
  | 0, _, pj, _ => pj - 1
  | f + 1, a, pj, vp =>
      let pj2 := pj - 1
      if vp < keyA a pj2 then scanDownF f a pj2 vp else pj2

/-- The partition exchange loop: scan up, scan down, break only when
the pointers have crossed (pj < pi); when both scans stop at the same
(pivot-valued) position the original performs a self-swap, a no-op, and
runs one more scan round before the pointers cross.  Returns the array
and the final value of pi. -/
def partSwapLoop (sf : Nat) : Nat → Array SongRow → Nat → Nat → Int → Array SongRow × Nat
  | 0, a, pi, _, _ => (a, pi + 1)
  | f + 1, a, pi, pj, vp =>
      let pi2 := scanUpF sf a pi vp
      let pj2 := scanDownF sf a pj vp
      if pj2 < pi2 then (a, pi2)
      else partSwapLoop sf f (aswapR a pi2 pj2) pi2 pj2 vp

/-- One quicksort partition of the segment [lo, hi], exactly as in
numpy's aquicksort: median-of-three pivot selection with conditional
swaps, pivot moved to hi-1, exchange loop from pi=lo and pj=hi-1, final
swap of positions pi and hi-1.  Returns the array and pi. -/
def partitionStep (a : Array SongRow) (lo hi : Nat) : Array SongRow × Nat :=
  let pm := lo + (hi - lo) / 2
  let a1 := if keyA a pm < keyA a lo then aswapR a pm lo else a
  let a2 := if keyA a1 hi < keyA a1 pm then aswapR a1 hi pm else a1
  let a3 := if keyA a2 pm < keyA a2 lo then aswapR a2 pm lo else a2
  let vp := keyA a3 pm
  let a4 := aswapR a3 pm (hi - 1)
  let r := partSwapLoop hi hi a4 lo (hi - 1) vp
  (aswapR r.1 r.2 (hi - 1), r.2)

/-- Key at the 1-based position k of the segment starting at lo
(numpy's aheapsort addresses the segment through a = tosort - 1). -/
def key1 (a : Array SongRow) (lo k : Nat) : Int :=
  keyA a (lo + k - 1)

/-- Element at the 1-based position k of the segment starting at lo. -/
def get1 (a : Array SongRow) (lo k : Nat) : SongRow :=
  a.getD (lo + k - 1) default

/-- Write at the 1-based position k of the segment starting at lo. -/
def set1 (a : Array SongRow) (lo k : Nat) (x : SongRow) : Array SongRow :=
  a.setD (lo + k - 1) x

/-- The sift-down loop shared by both phases of numpy's aheapsort:
for (i = l, j = l*2; j <= n;) pick the larger child, move it up while it
beats tmp, finally store tmp at i. -/
def hsSiftLoop (lo n : Nat) (tmp : SongRow) : Nat → Array SongRow → Nat → Nat → Array SongRow
  | 0, a, i, _ => set1 a lo i tmp
  | f + 1, a, i, j =>
      if j ≤ n then
        let j2 := if j < n && decide (key1 a lo j < key1 a lo (j + 1)) then j + 1 else j
        if tmp.order < key1 a lo j2 then
          hsSiftLoop lo n tmp f (set1 a lo i (get1 a lo j2)) j2 (j2 + j2)
        else set1 a lo i tmp
      else set1 a lo i tmp

/-- Heap construction phase: for (l = n/2; l > 0; --l) sift a[l]. -/
def hsBuild (lo n : Nat) : Nat → Array SongRow → Array SongRow
  | 0, a => a
  | l + 1, a => hsBuild lo n l (hsSiftLoop lo n (get1 a lo (l + 1)) (n + 2) a (l + 1) ((l + 1) + (l + 1)))

/-- Extraction phase: while (n > 1) move a[n] to the root position,
shrink the heap, sift the displaced root. -/
def hsExtract (lo : Nat) : Nat → Array SongRow → Array SongRow
  | 0, a => a
  | 1, a => a
  | n + 2, a =>
      let tmp := get1 a lo (n + 2)
      let a1 := set1 a lo (n + 2) (get1 a lo 1)
      let a2 := hsSiftLoop lo (n + 1) tmp (n + 3) a1 1 2
      hsExtract lo (n + 1) a2

/-- numpy's aheapsort on the segment [lo, hi], the introsort fallback
taken when the depth limit is exhausted. -/
def aheapsortSeg (a : Array SongRow) (lo hi : Nat) : Array SongRow :=
  let n := hi + 1 - lo
  hsExtract lo n (hsBuild lo n (n / 2) a)

/-- numpy's aquicksort (introsort) on the segment [lo, hi]:
segments of at most 16 elements are insertion sorted; otherwise, if the
depth budget is exhausted the segment is heapsorted, else it is
partitioned and the two sides are sorted, the smaller side first exactly
as the iterative original does (it keeps the smaller side and pushes the
larger on its stack).  The depth budget is threaded through in that
processing order, matching the single counter of the C code.  The fuel
argument only serves termination; it never runs out because every
partition produces strictly smaller segments. -/
def aqsortSeg : Nat → Array SongRow → Int → Nat → Nat → Array SongRow × Int
  | 0, a, depth, lo, hi =>
    if hi ≤ lo + 15 then (insSortSegArr a lo hi, depth)
    else if depth < 0 then (aheapsortSeg a lo hi, depth - 1)
    else (a, depth)
  | f + 1, a, depth, lo, hi =>
    if hi ≤ lo + 15 then (insSortSegArr a lo hi, depth)
    else if depth < 0 then (aheapsortSeg a lo hi, depth - 1)
    else
      let p := partitionStep a lo hi
      if p.2 - lo < hi - p.2 then
        let r := aqsortSeg f p.1 (depth - 1) lo (p.2 - 1)
        aqsortSeg f r.1 r.2 (p.2 + 1) hi
      else
        let r := aqsortSeg f p.1 (depth - 1) (p.2 + 1) hi
        aqsortSeg f r.1 r.2 lo (p.2 - 1)

/-- pandas.DataFrame.sort_values(by='曲順') with the default kind:
numpy introsort over the order keys, applied to the rows. -/
def pandasSortByOrder (rows : List SongRow) : List SongRow :=
  (aqsortSeg (rows.length + 1) (Array.mk rows) ((2 * Nat.log2 rows.length : Nat) : Int) 0 (rows.length - 1)).1.toList

/-- The failure signalled (st.warning followed by st.stop) when the
join key column ライブID is missing from either sheet. -/
inductive SheetErr where
  | missingJoinKey : SheetErr
deriving DecidableEq

/-- The lives (events) sheet: only its column headers matter to the
join guard; the selected row's ライブID is passed in separately. -/
structure LivesTable where
  cols : List String
deriving DecidableEq

/-- The songs (items) sheet: its column headers and its rows. -/
structure SongsTable where
  cols : List String
  rows : List SongRow
deriving DecidableEq

/-- The join of streamlit_app.py lines 75-94: if ライブID is present in
both sheets, filter the songs to the selected live and sort them by
曲順 when that column exists; otherwise warn and stop
(modelled as the missingJoinKey error, no rows are produced). -/
def joinSongs (lives : LivesTable) (songs : SongsTable) (selectedId : Int) : Except SheetErr (List SongRow) :=
  if "ライブID" ∈ lives.cols ∧ "ライブID" ∈ songs.cols then
    let filtered := songs.rows.filter (fun r => r.liveId = selectedId)
    if "曲順" ∈ songs.cols then Except.ok (pandasSortByOrder filtered)
    else Except.ok filtered
  else Except.error SheetErr.missingJoinKey

/-- load_data, lines 39-41: both sheets get their column names stripped
of surrounding whitespace right after reading. -/
def loadLives (t : LivesTable) : LivesTable :=
  LivesTable.mk (t.cols.map pyStrip)

/-- load_data for the songs sheet: column names stripped, rows kept. -/
def loadSongs (t : SongsTable) : SongsTable :=
  SongsTable.mk (t.cols.map pyStrip) t.rows

/-- The request pipeline: load (which strips headers), then join. -/
def appPipeline (lives : LivesTable) (songs : SongsTable) (selectedId : Int) : Except SheetErr (List SongRow) :=
  joinSongs (loadLives lives) (loadSongs songs) selectedId


/-! ### Stability and sortedness of the insertion path -/

deriving instance DecidableEq for Except

/-! ### Claims about the sheet join -/

/-- ratTrunc on an integer value is that integer (int() of an integral
float is exact). -/
lemma ratTrunc_intCast (t : Int) : ratTrunc ((t : ℚ)) = t := by
  unfold ratTrunc
  by_cases h : (0 : ℚ) ≤ (t : ℚ)
  · rw [if_pos h, Int.floor_intCast]
  · rw [if_neg h]
    rw [show -((t : ℚ)) = (((-t : Int)) : ℚ) by push_cast; ring, Int.floor_intCast]
    ring

/-- Claim C5: for every base link and integer time offset, the derived
deep link appends "&t=" followed by the offset when the base link
already contains a question mark, and "?t=" followed by the offset
otherwise; in particular the specification's example link with offset
90 gets "&t=90" appended. -/
theorem claim_C5 :
    (∀ (base : String) (t : Int),
      youtubeLink (Cell.str base) (Cell.num (t : ℚ)) =
        if pySubstr "?" base then base ++ "&t=" ++ toString t
        else base ++ "?t=" ++ toString t) ∧
    youtubeLink (Cell.str "https://x.com/watch?v=1") (Cell.num 90) =
      "https://x.com/watch?v=1&t=90" := by
  constructor
  · intro base t
    show (if pyNotna (Cell.str base) && pyNotna (Cell.num (t : ℚ)) then _ else _) = _
    rw [show (pyNotna (Cell.str base) && pyNotna (Cell.num (t : ℚ))) = true from rfl,
      if_pos rfl]
    show (match pyIntOfCell (Cell.num (t : ℚ)) with
      | some seconds =>
          pyStr (Cell.str base) ++ (if pySubstr "?" (pyStr (Cell.str base)) then "&" else "?")
            ++ "t=" ++ toString seconds
      | none => pyStr (Cell.str base)) = _
    rw [show pyIntOfCell (Cell.num (t : ℚ)) = some (ratTrunc ((t : ℚ))) from rfl,
      ratTrunc_intCast]
    show pyStr (Cell.str base) ++ (if pySubstr "?" (pyStr (Cell.str base)) then "&" else "?")
        ++ "t=" ++ toString t = _
    show base ++ (if pySubstr "?" base then "&" else "?") ++ "t=" ++ toString t = _
    by_cases h : pySubstr "?" base
    · rw [if_pos h, if_pos h, String.append_assoc base "&" "t=",
        show ("&" ++ "t=" : String) = "&t=" from rfl]
    · rw [if_neg h, if_neg h, String.append_assoc base "?" "t=",
        show ("?" ++ "t=" : String) = "?t=" from rfl]
  · decide

/-- Claim C6: when the join key column ライブID is absent from either
sheet, the join fails with the missing-join-key signal (a warning plus
st.stop in the script): the request's rendering halts and no song rows
are produced or silently skipped. -/
theorem claim_C6 (lives : LivesTable) (songs : SongsTable) (selectedId : Int)
    (h : "ライブID" ∉ lives.cols ∨ "ライブID" ∉ songs.cols) :
    joinSongs lives songs selectedId = Except.error SheetErr.missingJoinKey := by
  unfold joinSongs
  rw [if_neg]
  tauto

/-- Witness for claim C6: a songs sheet without the key column makes
the join fail even though the lives sheet has it. -/
theorem claim_C6_witness :
    ("ライブID" ∉ (LivesTable.mk ["ライブID"]).cols ∨
      "ライブID" ∉ (SongsTable.mk ["曲順"] []).cols) ∧
    joinSongs (LivesTable.mk ["ライブID"]) (SongsTable.mk ["曲順"] []) 5 =
      Except.error SheetErr.missingJoinKey :=
  ⟨Or.inr (by decide),
   claim_C6 (LivesTable.mk ["ライブID"]) (SongsTable.mk ["曲順"] []) 5 (Or.inr (by decide))⟩

/-- Claim C9: when the base link and the STARTTIME cell are both
present but int() of the STARTTIME value raises ValueError, the link is
the base link verbatim (no time parameter), the row is still rendered,
and rendering a whole list of such songs produces one line per song. -/
theorem claim_C9 (nameC vocalC base starttime : Cell)
    (hb : pyNotna base = true) (hs : pyNotna starttime = true)
    (hint : pyIntOfCell starttime = none) :
    youtubeLink base starttime = pyStr base ∧
    renderSongRow nameC vocalC base starttime =
      pyStrip (pyStr nameC ++ " " ++ pyStr vocalC ++ " " ++ pyStr base) ∧
    ∀ songs : List (Cell × Cell × Cell),
      (renderSongs base songs).length = songs.length := by
  have hlink : youtubeLink base starttime = pyStr base := by
    unfold youtubeLink
    rw [hb, hs]
    simp only [Bool.and_self, if_true, hint]
  refine ⟨hlink, ?_, ?_⟩
  · unfold renderSongRow
    rw [hlink]
  · intro songs
    simp [renderSongs]

/-- Witness for claim C9: STARTTIME "1:23" is present but not an
integer literal, so the link is the base link verbatim and the row is
still rendered. -/
theorem claim_C9_witness :
    pyNotna (Cell.str "https://x.com/watch?v=1") = true ∧
    pyNotna (Cell.str "1:23") = true ∧
    pyIntOfCell (Cell.str "1:23") = none ∧
    youtubeLink (Cell.str "https://x.com/watch?v=1") (Cell.str "1:23") =
      pyStr (Cell.str "https://x.com/watch?v=1") :=
  ⟨by decide, by decide, by decide,
   (claim_C9 (Cell.str "X") (Cell.str "Y") (Cell.str "https://x.com/watch?v=1")
     (Cell.str "1:23") (by decide) (by decide) (by decide)).1⟩

/-- Claim C10: load_data strips surrounding whitespace from every
column header of both sheets before any presence check, join or sort
runs, so a join key whose header carries surrounding whitespace in the
source data is treated as present under its trimmed name: the loaded
headers are exactly the stripped originals and the pipeline does not
fail with the missing-join-key signal. -/
theorem claim_C10 (lives : LivesTable) (songs : SongsTable) (selectedId : Int)
    (h1 : ∃ c ∈ lives.cols, pyStrip c = "ライブID")
    (h2 : ∃ c ∈ songs.cols, pyStrip c = "ライブID") :
    (loadLives lives).cols = lives.cols.map pyStrip ∧
    (loadSongs songs).cols = songs.cols.map pyStrip ∧
    "ライブID" ∈ (loadLives lives).cols ∧
    "ライブID" ∈ (loadSongs songs).cols ∧
    appPipeline lives songs selectedId ≠ Except.error SheetErr.missingJoinKey := by
  have m1 : "ライブID" ∈ (loadLives lives).cols := by
    show _ ∈ lives.cols.map pyStrip
    rw [List.mem_map]
    obtain ⟨c, hc, hsc⟩ := h1
    exact ⟨c, hc, hsc⟩
  have m2 : "ライブID" ∈ (loadSongs songs).cols := by
    show _ ∈ songs.cols.map pyStrip
    rw [List.mem_map]
    obtain ⟨c, hc, hsc⟩ := h2
    exact ⟨c, hc, hsc⟩
  refine ⟨rfl, rfl, m1, m2, ?_⟩
  unfold appPipeline joinSongs
  rw [if_pos ⟨m1, m2⟩]
  by_cases h3 : "曲順" ∈ (loadSongs songs).cols
  · rw [if_pos h3]
    intro hcontra
    exact Except.noConfusion hcontra
  · rw [if_neg h3]
    intro hcontra
    exact Except.noConfusion hcontra

/-- Witness for claim C10: headers padded with spaces and a tab are
stripped by load_data, so the join key is found and the pipeline does
not halt with the missing-join-key signal. -/
theorem claim_C10_witness :
    (∃ c ∈ (LivesTable.mk [" ライブID "]).cols, pyStrip c = "ライブID") ∧
    appPipeline (LivesTable.mk [" ライブID "]) (SongsTable.mk ["ライブID\t", "曲順"] []) 3 ≠
      Except.error SheetErr.missingJoinKey :=
  ⟨⟨" ライブID ", by decide, by decide⟩,
   (claim_C10 (LivesTable.mk [" ライブID "]) (SongsTable.mk ["ライブID\t", "曲順"] []) 3
     ⟨" ライブID ", by decide, by decide⟩ ⟨"ライブID\t", by decide, by decide⟩).2.2.2.2⟩

/-! ### The daily-series aggregation of weather_dashboard.py

The Open-Meteo daily block is a dataframe with one row per day; the
script reads df_daily["temperature_2m_max"].max(),
df_daily["temperature_2m_min"].min() and
df_daily["windspeed_10m_max"].max() over the whole frame (the source
comments that it deliberately does not filter by the selected
date_range).  Dates are modelled as day numbers, values as rationals. -/

structure DailyRow where
  date : Int
  tmax : ℚ
  tmin : ℚ
  wmax : ℚ
deriving DecidableEq, Inhabited

structure DailySeries where
  rows : List DailyRow
deriving DecidableEq

/-- pandas Series.max over a numeric column: none on an empty column
(pandas yields NaN there), otherwise the fold of max. -/
def colMax : List ℚ → Option ℚ
  | [] => none
  | x :: xs => some (xs.foldl max x)

/-- pandas Series.min over a numeric column. -/
def colMin : List ℚ → Option ℚ
  | [] => none
  | x :: xs => some (xs.foldl min x)

structure WeatherSummary where
  maxT : Option ℚ
  minT : Option ℚ
  maxW : Option ℚ
deriving DecidableEq

/-- Lines 216-220: the three metrics are computed over the entire daily
frame, with no window filtering. -/
def summarizeDaily (d : DailySeries) : WeatherSummary :=
  WeatherSummary.mk
    (colMax (d.rows.map (fun r => r.tmax)))
    (colMin (d.rows.map (fun r => r.tmin)))
    (colMax (d.rows.map (fun r => r.wmax)))

/-- The only error the request path signals about the window: the
sidebar validation (lines 164-169) stops the script when
(end_date - start_date).days > 14. -/
inductive DashError where
  | windowTooLong : DashError
deriving DecidableEq

/-- The request path from the validated sidebar window to the metrics:
if (end_date - start_date).days > 14 the script errors and stops,
otherwise the daily series is summarized (the window is not consulted
again). -/
def processRequest (startD endD : Int) (d : DailySeries) : Except DashError WeatherSummary :=
  if 14 < endD - startD then Except.error DashError.windowTooLong
  else Except.ok (summarizeDaily d)

/-- Modelled from the spec (for comparison only, not from the source):
the behaviour the specification describes for summarize — filter the
entries whose date falls within the inclusive window, aggregate over
those, and if no entry falls within the window aggregate over the whole
series and raise a WindowOutOfRange warning (the Bool component). -/
def specWindowSummarize (d : DailySeries) (startD endD : Int) : WeatherSummary × Bool :=
  let hits := d.rows.filter (fun r => startD ≤ r.date && r.date ≤ endD)
  if hits.isEmpty then
    (WeatherSummary.mk
      (colMax (d.rows.map (fun r => r.tmax)))
      (colMin (d.rows.map (fun r => r.tmin)))
      (colMax (d.rows.map (fun r => r.wmax))), true)
  else
    (WeatherSummary.mk
      (colMax (hits.map (fun r => r.tmax)))
      (colMin (hits.map (fun r => r.tmin)))
      (colMax (hits.map (fun r => r.wmax))), false)

/-- The two-day example series: day 0 (tmax 10, tmin 5, wmax 3) and
day 1 (tmax 30, tmin 2, wmax 9). -/
def wdEx : DailySeries :=
  DailySeries.mk [DailyRow.mk 0 10 5 3, DailyRow.mk 1 30 2 9]

/-- The option holds the maximum of the list. -/
def isMaxOf (o : Option ℚ) (l : List ℚ) : Prop :=
  ∃ m, o = some m ∧ m ∈ l ∧ ∀ x ∈ l, x ≤ m

/-- The option holds the minimum of the list. -/
def isMinOf (o : Option ℚ) (l : List ℚ) : Prop :=
  ∃ m, o = some m ∧ m ∈ l ∧ ∀ x ∈ l, m ≤ x

lemma foldl_max_mem {α : Type} [LinearOrder α] (xs : List α) :
    ∀ x : α, xs.foldl max x ∈ x :: xs := by
  induction xs with
  | nil => intro x; simp
  | cons y ys ih =>
    intro x
    have h := ih (max x y)
    rcases List.mem_cons.mp h with h1 | h1
    · rcases max_choice x y with hc | hc <;> rw [List.foldl_cons, h1, hc] <;> simp
    · simp only [List.foldl_cons]
      exact List.mem_cons_of_mem _ (List.mem_cons_of_mem _ h1)

lemma le_foldl_max {α : Type} [LinearOrder α] (xs : List α) :
    ∀ x : α, ∀ z ∈ x :: xs, z ≤ xs.foldl max x := by
  induction xs with
  | nil =>
    intro x z hz
    rcases List.mem_cons.mp hz with rfl | h
    · exact le_refl z
    · simp at h
  | cons y ys ih =>
    intro x z hz
    simp only [List.foldl_cons]
    rcases List.mem_cons.mp hz with rfl | h
    · exact le_trans (le_max_left z y) (ih (max z y) (max z y) (List.mem_cons_self _ _))
    · rcases List.mem_cons.mp h with rfl | h2
      · exact le_trans (le_max_right x z) (ih (max x z) (max x z) (List.mem_cons_self _ _))
      · exact ih (max x y) z (List.mem_cons_of_mem _ h2)

lemma foldl_min_mem {α : Type} [LinearOrder α] (xs : List α) :
    ∀ x : α, xs.foldl min x ∈ x :: xs := by
  induction xs with
  | nil => intro x; simp
  | cons y ys ih =>
    intro x
    have h := ih (min x y)
    rcases List.mem_cons.mp h with h1 | h1
    · rcases min_choice x y with hc | hc <;> rw [List.foldl_cons, h1, hc] <;> simp
    · simp only [List.foldl_cons]
      exact List.mem_cons_of_mem _ (List.mem_cons_of_mem _ h1)

lemma foldl_min_le {α : Type} [LinearOrder α] (xs : List α) :
    ∀ x : α, ∀ z ∈ x :: xs, xs.foldl min x ≤ z := by
  induction xs with
  | nil =>
    intro x z hz
    rcases List.mem_cons.mp hz with rfl | h
    · exact le_refl z
    · simp at h
  | cons y ys ih =>
    intro x z hz
    simp only [List.foldl_cons]
    rcases List.mem_cons.mp hz with rfl | h
    · exact le_trans (ih (min z y) (min z y) (List.mem_cons_self _ _)) (min_le_left z y)
    · rcases List.mem_cons.mp h with rfl | h2
      · exact le_trans (ih (min x z) (min x z) (List.mem_cons_self _ _)) (min_le_right x z)
      · exact ih (min x y) z (List.mem_cons_of_mem _ h2)

lemma colMax_isMaxOf {l : List ℚ} (h : l ≠ []) : isMaxOf (colMax l) l := by
  cases l with
  | nil => exact absurd rfl h
  | cons x xs =>
    exact ⟨xs.foldl max x, rfl, foldl_max_mem xs x, le_foldl_max xs x⟩

lemma colMin_isMinOf {l : List ℚ} (h : l ≠ []) : isMinOf (colMin l) l := by
  cases l with
  | nil => exact absurd rfl h
  | cons x xs =>
    exact ⟨xs.foldl min x, rfl, foldl_min_mem xs x, foldl_min_le xs x⟩

/-- Claim C1 (counterexample): on the two-day example series with the
window restricted to day 0, the claim requires the statistics of the
windowed naive scan (max 10, min 5, wind 3); the code computes the
whole-series statistics (max 30, min 2, wind 9) with no warning notion
at all, even though the window does intersect the series. -/
theorem claim_C1_cex :
    processRequest 0 0 wdEx =
      Except.ok (WeatherSummary.mk (some 30) (some 2) (some 9)) ∧
    (specWindowSummarize wdEx 0 0).1 =
      WeatherSummary.mk (some 10) (some 5) (some 3) ∧
    summarizeDaily wdEx ≠ (specWindowSummarize wdEx 0 0).1 := by
  refine ⟨by decide, by decide, by decide⟩

/-- Claim C1 (amended): for every series and every upstream-valid
window, summarize computes the max temperature, min temperature and max
windspeed over the entire series — the naive scan over all entries —
irrespective of the window: the result is identical for every valid
window, and no WindowOutOfRange warning exists on this path. -/
theorem claim_C1_amended (d : DailySeries) (s e : Int)
    (hle : s ≤ e) (hlen : e - s ≤ 14) (hne : d.rows ≠ []) :
    processRequest s e d = Except.ok (summarizeDaily d) ∧
    isMaxOf (summarizeDaily d).maxT (d.rows.map (fun r => r.tmax)) ∧
    isMinOf (summarizeDaily d).minT (d.rows.map (fun r => r.tmin)) ∧
    isMaxOf (summarizeDaily d).maxW (d.rows.map (fun r => r.wmax)) ∧
    ∀ s2 e2 : Int, e2 - s2 ≤ 14 → processRequest s2 e2 d = processRequest s e d := by
  have hmapne : ∀ f : DailyRow → ℚ, d.rows.map f ≠ [] := by
    intro f h
    exact hne (List.map_eq_nil_iff.mp h)
  have hok : processRequest s e d = Except.ok (summarizeDaily d) := by
    unfold processRequest
    rw [if_neg (by omega)]
  refine ⟨hok, colMax_isMaxOf (hmapne _), colMin_isMinOf (hmapne _),
    colMax_isMaxOf (hmapne _), ?_⟩
  intro s2 e2 h2
  rw [hok]
  unfold processRequest
  rw [if_neg (by omega)]

/-- Witness for claim C1 (amended) at the example series and the
window [0, 6]. -/
theorem claim_C1_witness :
    ((0 : Int) ≤ 6 ∧ (6 : Int) - 0 ≤ 14 ∧ wdEx.rows ≠ []) ∧
    (processRequest 0 6 wdEx = Except.ok (summarizeDaily wdEx) ∧
     isMaxOf (summarizeDaily wdEx).maxT (wdEx.rows.map (fun r => r.tmax)) ∧
     isMinOf (summarizeDaily wdEx).minT (wdEx.rows.map (fun r => r.tmin)) ∧
     isMaxOf (summarizeDaily wdEx).maxW (wdEx.rows.map (fun r => r.wmax)) ∧
     ∀ s2 e2 : Int, e2 - s2 ≤ 14 → processRequest s2 e2 wdEx = processRequest 0 6 wdEx) :=
  ⟨⟨by decide, by decide, by decide⟩,
   claim_C1_amended wdEx 0 6 (by decide) (by decide) (by decide)⟩

/-- Claim C8 (counterexample): with the reversed window [5, 3]
(end before start) the request path does not fail at all — the sidebar
guard only fires for differences above 14 days, and the aggregator
performs no validation — so the metrics are produced normally where the
claim demands an InvalidWindow failure. -/
theorem claim_C8_cex :
    processRequest 5 3 wdEx =
      Except.ok (WeatherSummary.mk (some 30) (some 2) (some 9)) := by
  decide

/-- Claim C8 (amended): the upstream sidebar validation halts the
request with an error exactly when (end_date - start_date).days exceeds
14, before the aggregator runs; the aggregator itself performs no
window validation, and in particular a reversed window
(end_date < start_date) passes the guard and yields the full-series
summary instead of an InvalidWindow failure. -/
theorem claim_C8_amended (s e : Int) (d : DailySeries) :
    (14 < e - s → processRequest s e d = Except.error DashError.windowTooLong) ∧
    (e - s ≤ 14 → processRequest s e d = Except.ok (summarizeDaily d)) ∧
    (e < s → processRequest s e d = Except.ok (summarizeDaily d)) := by
  refine ⟨?_, ?_, ?_⟩
  · intro h
    unfold processRequest
    rw [if_pos h]
  · intro h
    unfold processRequest
    rw [if_neg (by omega)]
  · intro h
    unfold processRequest
    rw [if_neg (by omega)]

/-- Witness for claim C8 (amended): a 36-day window is rejected by the
upstream guard, and the reversed window [20, 3] reaches the aggregator
and succeeds. -/
theorem claim_C8_witness :
    processRequest 0 36 wdEx = Except.error DashError.windowTooLong ∧
    processRequest 20 3 wdEx = Except.ok (summarizeDaily wdEx) :=
  ⟨(claim_C8_amended 0 36 wdEx).1 (by decide),
   (claim_C8_amended 20 3 wdEx).2.2 (by decide)⟩

/-! ### The distance call of weather_dashboard.py

calculate_distance (line 129-131) passes the two coordinate pairs
straight to geopy's geodesic and performs no validation of its own.
geopy's Point normalization (geopy 2.x) rejects non-finite coordinates
and latitudes outside the closed range [-90, 90] with ValueError, and
silently wraps longitudes of magnitude above 180 into range; the
geodesic value itself is modelled over the reals at great-circle
(haversine) granularity, as the source's own comment describes the
computation (Haversine 相当), which preserves the symmetry and the
zero-on-equal-points property of the real geodesic. -/

/-- A Python float at the granularity the validation needs: NaN (or any
non-finite value) or a finite value. -/
inductive FVal where
  | nan : FVal
  | num (q : ℚ) : FVal
deriving DecidableEq

structure FCoord where
  lat : FVal
  lon : FVal
deriving DecidableEq

/-- The two ValueErrors geopy's Point normalization can raise. -/
inductive GeopyError where
  | nonFinite : GeopyError
  | latOutOfRange : GeopyError
deriving DecidableEq

/-- Python's float modulo (floor convention). -/
def qmod (x y : ℚ) : ℚ := x - y * (⌊x / y⌋ : ℤ)

/-- geopy Point normalization: all coordinates must be finite, the
latitude must lie in [-90, 90], and a longitude of magnitude above 180
is wrapped into range ((lon + 180) % 360 - 180). -/
def pointNormalize : FVal → FVal → Except GeopyError (ℚ × ℚ)
  | FVal.num la, FVal.num lo =>
      if 90 < |la| then Except.error GeopyError.latOutOfRange
      else Except.ok (la, if 180 < |lo| then qmod (lo + 180) 360 - 180 else lo)
  | _, _ => Except.error GeopyError.nonFinite

/-- Degrees to radians. -/
noncomputable def degRad (q : ℚ) : ℝ := (q : ℝ) * Real.pi / 180

/-- The haversine of an angle. -/
noncomputable def havFn (x : ℝ) : ℝ := Real.sin (x / 2) ^ 2

/-- Great-circle distance in kilometers between two validated
coordinate pairs (mean earth radius), the granularity at which the
geopy geodesic is modelled. -/
noncomputable def haversineKm (la1 lo1 la2 lo2 : ℚ) : ℝ :=
  2 * 6371.0088 *
    Real.arcsin (Real.sqrt (havFn (degRad la2 - degRad la1) +
      Real.cos (degRad la1) * Real.cos (degRad la2) * havFn (degRad lo2 - degRad lo1)))

/-- calculate_distance: both points are normalized by geopy (the first
point's error surfaces first) and the distance between the normalized
points is returned. -/
noncomputable def calculate_distance (c1 c2 : FCoord) : Except GeopyError ℝ :=
  match pointNormalize c1.lat c1.lon, pointNormalize c2.lat c2.lon with
  | Except.ok p1, Except.ok p2 => Except.ok (haversineKm p1.1 p1.2 p2.1 p2.2)
  | Except.error e, _ => Except.error e
  | Except.ok _, Except.error e => Except.error e

/-- Whether an Except is an error. -/
def exceptHasErr {ε α : Type _} : Except ε α → Bool
  | Except.error _ => true
  | Except.ok _ => false

/-- The condition under which geopy raises for one coordinate pair,
stated from the claim's side: a NaN latitude or longitude, or a
latitude outside the closed range [-90, 90]. -/
def coordRaises (c : FCoord) : Prop :=
  c.lat = FVal.nan ∨ c.lon = FVal.nan ∨ ∃ q, c.lat = FVal.num q ∧ 90 < |q|

lemma pointNormalize_err_iff (lat lon : FVal) :
    (∃ e, pointNormalize lat lon = Except.error e) ↔
      (lat = FVal.nan ∨ lon = FVal.nan ∨ ∃ q, lat = FVal.num q ∧ 90 < |q|) := by
  cases lat with
  | nan => simp [pointNormalize]
  | num la =>
    cases lon with
    | nan => simp [pointNormalize]
    | num lo =>
      by_cases h : 90 < |la|
      · simp [pointNormalize, h]
      · simp [pointNormalize, h]

/-- Claim C3 (amended): calculate_distance fails — with geopy's
ValueError, there is no dedicated InvalidCoordinate kind in the script —
exactly when some coordinate is NaN or some latitude lies outside ±90;
an out-of-range longitude does not fail (it is silently wrapped into
[-180, 180]) and every remaining input returns a distance. -/
theorem claim_C3_amended (c1 c2 : FCoord) :
    exceptHasErr (calculate_distance c1 c2) = true ↔ (coordRaises c1 ∨ coordRaises c2) := by
  have key : ∀ c : FCoord,
      (∃ e, pointNormalize c.lat c.lon = Except.error e) ↔ coordRaises c := by
    intro c
    exact pointNormalize_err_iff c.lat c.lon
  rcases h1 : pointNormalize c1.lat c1.lon with e1 | p1 <;>
    rcases h2 : pointNormalize c2.lat c2.lon with e2 | p2
  · constructor
    · intro _
      exact Or.inl ((key c1).mp ⟨e1, h1⟩)
    · intro _
      show exceptHasErr (match pointNormalize c1.lat c1.lon, pointNormalize c2.lat c2.lon with
        | Except.ok p1, Except.ok p2 => Except.ok (haversineKm p1.1 p1.2 p2.1 p2.2)
        | Except.error e, _ => Except.error e
        | Except.ok _, Except.error e => Except.error e) = true
      rw [h1, h2]
      rfl
  · constructor
    · intro _
      exact Or.inl ((key c1).mp ⟨e1, h1⟩)
    · intro _
      show exceptHasErr (match pointNormalize c1.lat c1.lon, pointNormalize c2.lat c2.lon with
        | Except.ok p1, Except.ok p2 => Except.ok (haversineKm p1.1 p1.2 p2.1 p2.2)
        | Except.error e, _ => Except.error e
        | Except.ok _, Except.error e => Except.error e) = true
      rw [h1, h2]
      rfl
  · constructor
    · intro _
      exact Or.inr ((key c2).mp ⟨e2, h2⟩)
    · intro _
      show exceptHasErr (match pointNormalize c1.lat c1.lon, pointNormalize c2.lat c2.lon with
        | Except.ok p1, Except.ok p2 => Except.ok (haversineKm p1.1 p1.2 p2.1 p2.2)
        | Except.error e, _ => Except.error e
        | Except.ok _, Except.error e => Except.error e) = true
      rw [h1, h2]
      rfl
  · constructor
    · intro hcontra
      exfalso
      have : exceptHasErr (calculate_distance c1 c2) = false := by
        show exceptHasErr (match pointNormalize c1.lat c1.lon, pointNormalize c2.lat c2.lon with
          | Except.ok p1, Except.ok p2 => Except.ok (haversineKm p1.1 p1.2 p2.1 p2.2)
          | Except.error e, _ => Except.error e
          | Except.ok _, Except.error e => Except.error e) = false
        rw [h1, h2]
        rfl
      rw [this] at hcontra
      exact Bool.noConfusion hcontra
    · intro hor
      rcases hor with hc | hc
      · obtain ⟨e, he⟩ := (key c1).mpr hc
        rw [h1] at he
        exact Except.noConfusion he
      · obtain ⟨e, he⟩ := (key c2).mpr hc
        rw [h2] at he
        exact Except.noConfusion he

/-- Claim C3 (counterexample): the claim requires a failure for a
longitude outside ±180, but the point (lat 0, lon 200) paired with the
origin produces a distance without failing — geopy wraps the longitude
instead of raising. -/
theorem claim_C3_cex :
    exceptHasErr (calculate_distance (FCoord.mk (FVal.num 0) (FVal.num 200))
      (FCoord.mk (FVal.num 0) (FVal.num 0))) = false := by
  have h1 : pointNormalize (FVal.num 0) (FVal.num 200) =
      Except.ok ((0 : ℚ), qmod ((200 : ℚ) + 180) 360 - 180) := by
    simp only [pointNormalize]
    rw [if_neg (by norm_num), if_pos (by norm_num)]
  have h2 : pointNormalize (FVal.num 0) (FVal.num 0) = Except.ok ((0 : ℚ), (0 : ℚ)) := by
    simp only [pointNormalize]
    rw [if_neg (by norm_num), if_neg (by norm_num)]
  show exceptHasErr (match pointNormalize (FVal.num 0) (FVal.num 200),
      pointNormalize (FVal.num 0) (FVal.num 0) with
    | Except.ok p1, Except.ok p2 => Except.ok (haversineKm p1.1 p1.2 p2.1 p2.2)
    | Except.error e, _ => Except.error e
    | Except.ok _, Except.error e => Except.error e) = false
  rw [h1, h2]
  rfl

lemma havFn_sub_comm (a b : ℝ) : havFn (a - b) = havFn (b - a) := by
  unfold havFn
  rw [show (a - b) / 2 = -((b - a) / 2) by ring, Real.sin_neg]
  ring

lemma haversineKm_comm (la1 lo1 la2 lo2 : ℚ) :
    haversineKm la1 lo1 la2 lo2 = haversineKm la2 lo2 la1 lo1 := by
  unfold haversineKm
  rw [havFn_sub_comm (degRad la2) (degRad la1), havFn_sub_comm (degRad lo2) (degRad lo1),
    mul_comm (Real.cos (degRad la1)) (Real.cos (degRad la2))]

lemma haversineKm_self (la lo : ℚ) : haversineKm la lo la lo = 0 := by
  unfold haversineKm
  rw [sub_self, sub_self]
  unfold havFn
  simp

/-- A valid Location: both coordinates are finite numbers, the latitude
lies within ±90 and the longitude within ±180. -/
def validCoord (c : FCoord) : Prop :=
  ∃ la lo : ℚ, c.lat = FVal.num la ∧ c.lon = FVal.num lo ∧ |la| ≤ 90 ∧ |lo| ≤ 180

lemma pointNormalize_valid {c : FCoord} {la lo : ℚ}
    (h1 : c.lat = FVal.num la) (h2 : c.lon = FVal.num lo)
    (h3 : |la| ≤ 90) (h4 : |lo| ≤ 180) :
    pointNormalize c.lat c.lon = Except.ok (la, lo) := by
  rw [h1, h2]
  simp only [pointNormalize]
  rw [if_neg (not_lt.mpr h3), if_neg (not_lt.mpr h4)]

/-- Claim C4: for every pair of valid Locations the distance is
symmetric, and the distance from a valid Location to itself is zero. -/
theorem claim_C4 (a b : FCoord) (ha : validCoord a) (hb : validCoord b) :
    calculate_distance a b = calculate_distance b a ∧
    calculate_distance a a = Except.ok (0 : ℝ) := by
  obtain ⟨la1, lo1, e1, e2, e3, e4⟩ := ha
  obtain ⟨la2, lo2, f1, f2, f3, f4⟩ := hb
  have p1 : pointNormalize a.lat a.lon = Except.ok (la1, lo1) :=
    pointNormalize_valid e1 e2 e3 e4
  have p2 : pointNormalize b.lat b.lon = Except.ok (la2, lo2) :=
    pointNormalize_valid f1 f2 f3 f4
  constructor
  · show (match pointNormalize a.lat a.lon, pointNormalize b.lat b.lon with
      | Except.ok q1, Except.ok q2 => Except.ok (haversineKm q1.1 q1.2 q2.1 q2.2)
      | Except.error e, _ => Except.error e
      | Except.ok _, Except.error e => Except.error e) =
      (match pointNormalize b.lat b.lon, pointNormalize a.lat a.lon with
      | Except.ok q1, Except.ok q2 => Except.ok (haversineKm q1.1 q1.2 q2.1 q2.2)
      | Except.error e, _ => Except.error e
      | Except.ok _, Except.error e => Except.error e)
    rw [p1, p2]
    show Except.ok (haversineKm la1 lo1 la2 lo2) = Except.ok (haversineKm la2 lo2 la1 lo1)
    rw [haversineKm_comm]
  · show (match pointNormalize a.lat a.lon, pointNormalize a.lat a.lon with
      | Except.ok q1, Except.ok q2 => Except.ok (haversineKm q1.1 q1.2 q2.1 q2.2)
      | Except.error e, _ => Except.error e
      | Except.ok _, Except.error e => Except.error e) = Except.ok (0 : ℝ)
    rw [p1]
    show Except.ok (haversineKm la1 lo1 la1 lo1) = Except.ok (0 : ℝ)
    rw [haversineKm_self]

/-- Tokyo per the specification's example coordinates. -/
def tokyoC : FCoord := FCoord.mk (FVal.num (356762 / 10000)) (FVal.num (1396503 / 10000))

/-- Osaka per the specification's example coordinates. -/
def osakaC : FCoord := FCoord.mk (FVal.num (346937 / 10000)) (FVal.num (1355023 / 10000))

/-- Witness for claim C4 at the Tokyo and Osaka coordinates of the
specification. -/
theorem claim_C4_witness :
    validCoord tokyoC ∧ validCoord osakaC ∧
    (calculate_distance tokyoC osakaC = calculate_distance osakaC tokyoC ∧
     calculate_distance tokyoC tokyoC = Except.ok (0 : ℝ)) :=
  ⟨⟨356762 / 10000, 1396503 / 10000, rfl, rfl, by norm_num [abs_le], by norm_num [abs_le]⟩,
   ⟨346937 / 10000, 1355023 / 10000, rfl, rfl, by norm_num [abs_le], by norm_num [abs_le]⟩,
   claim_C4 tokyoC osakaC
     ⟨356762 / 10000, 1396503 / 10000, rfl, rfl, by norm_num [abs_le], by norm_num [abs_le]⟩
     ⟨346937 / 10000, 1355023 / 10000, rfl, rfl, by norm_num [abs_le], by norm_num [abs_le]⟩⟩

/-! ### The feed-entry formatter of app.py

Lines 123-129: for each entry, datetime.strptime(entry.published,
'%a, %d %b %Y %H:%M:%S %Z') is attempted; on success the date is
re-rendered with strftime('%Y年%m月%d日 %H:%M'), on any failure the raw
published string is kept verbatim.  The strptime model follows the
regexes CPython's _strptime builds for that format: an abbreviated
weekday name (case-insensitive), a comma, runs of whitespace for the
format's literal blanks, a 1-2 digit day, an abbreviated month name, a
4-digit year, 1-2 digit hour/minute/second, and a known timezone name
(UTC/GMT for this feed); out-of-range calendar fields make the datetime
constructor raise, which the bare except also catches. -/

def monthNames : List String :=
  ["Jan", "Feb", "Mar", "Apr", "May", "Jun", "Jul", "Aug", "Sep", "Oct", "Nov", "Dec"]

def dayNames : List String := ["Mon", "Tue", "Wed", "Thu", "Fri", "Sat", "Sun"]

def tzNames : List String := ["UTC", "GMT"]

/-- Case-insensitive removal of a fixed word from the front of the
input; returns the rest on success. -/
def stripCI : List Char → List Char → Option (List Char)
  | [], rest => some rest
  | _ :: _, [] => none
  | c :: ws, d :: ds => if c.toLower = d.toLower then stripCI ws ds else none

/-- Case-insensitive alternation over a list of names, returning the
index of the first name that matches and the rest of the input. -/
def matchAltCI (i : Nat) : List String → List Char → Option (Nat × List Char)
  | [], _ => none
  | n :: ns, s =>
      match stripCI n.data s with
      | some rest => some (i, rest)
      | none => matchAltCI (i + 1) ns s

/-- One or more whitespace characters (the regex \s+ that _strptime
substitutes for whitespace in the format). -/
def matchWS1 : List Char → Option (List Char)
  | c :: rest => if pyWS c then some (rest.dropWhile pyWS) else none
  | [] => none

/-- An exact literal character. -/
def matchLit (c : Char) : List Char → Option (List Char)
  | d :: rest => if c = d then some rest else none
  | [] => none

/-- One or two digits, greedily, as the %d/%H/%M/%S regexes match. -/
def matchD2 : List Char → Option (Nat × List Char)
  | c1 :: c2 :: rest =>
      if isDigitCh c1 then
        if isDigitCh c2 then some ((c1.toNat - 48) * 10 + (c2.toNat - 48), rest)
        else some (c1.toNat - 48, c2 :: rest)
      else none
  | [c1] => if isDigitCh c1 then some (c1.toNat - 48, []) else none
  | [] => none

/-- Exactly four digits (the %Y regex). -/
def matchD4 : List Char → Option (Nat × List Char)
  | c1 :: c2 :: c3 :: c4 :: rest =>
      if isDigitCh c1 && isDigitCh c2 && isDigitCh c3 && isDigitCh c4 then
        some ((((c1.toNat - 48) * 10 + (c2.toNat - 48)) * 10 + (c3.toNat - 48)) * 10
          + (c4.toNat - 48), rest)
      else none
  | _ => none

structure PyDateTime where
  year : Nat
  month : Nat
  day : Nat
  hour : Nat
  minute : Nat
  second : Nat
deriving DecidableEq

def isLeapYear (y : Nat) : Bool :=
  y % 4 = 0 && (y % 100 ≠ 0 || y % 400 = 0)

def daysInMonth (y m : Nat) : Nat :=
  if m = 2 then (if isLeapYear y then 29 else 28)
  else if m = 4 || m = 6 || m = 9 || m = 11 then 30
  else 31

/-- The range checks the datetime constructor performs on the parsed
fields (ValueError on violation, caught by the bare except). -/
def validFields (y m d h mi se : Nat) : Bool :=
  1 ≤ y && y ≤ 9999 && 1 ≤ d && d ≤ daysInMonth y m && h ≤ 23 && mi ≤ 59 && se ≤ 59

/-- datetime.strptime(s, '%a, %d %b %Y %H:%M:%S %Z'), none where Python
raises (either at the regex or in the datetime constructor); the whole
input must be consumed. -/
def strptimePub (s : String) : Option PyDateTime := do
  let (_, r1) ← matchAltCI 0 dayNames s.data
  let r2 ← matchLit ',' r1
  let r3 ← matchWS1 r2
  let (day, r4) ← matchD2 r3
  let r5 ← matchWS1 r4
  let (mIdx, r6) ← matchAltCI 0 monthNames r5
  let r7 ← matchWS1 r6
  let (year, r8) ← matchD4 r7
  let r9 ← matchWS1 r8
  let (hour, r10) ← matchD2 r9
  let r11 ← matchLit ':' r10
  let (minute, r12) ← matchD2 r11
  let r13 ← matchLit ':' r12
  let (second, r14) ← matchD2 r13
  let r15 ← matchWS1 r14
  let (_, r16) ← matchAltCI 0 tzNames r15
  if r16 = [] && validFields year (mIdx + 1) day hour minute second then
    some (PyDateTime.mk year (mIdx + 1) day hour minute second)
  else none

/-- Zero-padding to two digits (%m, %d, %H, %M). -/
def pad2 (n : Nat) : String :=
  if n < 10 then "0" ++ toString n else toString n

/-- Zero-padding to four digits (%Y). -/
def pad4 (n : Nat) : String :=
  if n < 10 then "000" ++ toString n
  else if n < 100 then "00" ++ toString n
  else if n < 1000 then "0" ++ toString n
  else toString n

/-- dt.strftime('%Y年%m月%d日 %H:%M'). -/
def strftimeJp (dt : PyDateTime) : String :=
  pad4 dt.year ++ "年" ++ pad2 dt.month ++ "月" ++ pad2 dt.day ++ "日 "
    ++ pad2 dt.hour ++ ":" ++ pad2 dt.minute

structure RawEntry where
  title : String
  published : String
  summary : String
  link : String
deriving DecidableEq

structure FeedEntry where
  title : String
  published : String
  summary : String
  link : String
deriving DecidableEq

/-- Lines 123-139: the card rendered for one feed entry; the published
field is the reformatted date on parse success and the raw string on
parse failure. -/
def formatEntry (e : RawEntry) : FeedEntry :=
  FeedEntry.mk e.title
    (match strptimePub e.published with
     | some dt => strftimeJp dt
     | none => e.published)
    e.summary e.link

/-- The parser model does accept the feed's well-formed dates. -/
lemma strptimePub_accepts :
    strptimePub "Mon, 15 Jan 2024 10:30:00 GMT" =
      some (PyDateTime.mk 2024 1 15 10 30 0) := by
  decide

/-- Claim C7: for every raw feed entry whose published string does not
parse against the fixed format, format keeps the raw string verbatim in
the published field, leaves the other fields untouched, and does not
fail. -/
theorem claim_C7 (e : RawEntry) (h : strptimePub e.published = none) :
    (formatEntry e).published = e.published ∧
    (formatEntry e).title = e.title ∧
    (formatEntry e).summary = e.summary ∧
    (formatEntry e).link = e.link := by
  refine ⟨?_, rfl, rfl, rfl⟩
  show (match strptimePub e.published with
    | some dt => strftimeJp dt
    | none => e.published) = e.published
  rw [h]

/-- Witness for claim C7 on an unparseable published string. -/
theorem claim_C7_witness :
    strptimePub "2024-01-15 10:30" = none ∧
    (formatEntry (RawEntry.mk "T" "2024-01-15 10:30" "S" "L")).published =
      "2024-01-15 10:30" :=
  ⟨by decide,
   (claim_C7 (RawEntry.mk "T" "2024-01-15 10:30" "S" "L") (by decide)).1⟩
